import Mathlib

/-!
Verification of the mayastor message-bus registration subsystem
(`src/mayastor/src/subsys/mbus/mod.rs` and `mbus_nats.rs`).

The asynchronous code is shallowly embedded: each long-running loop is a
pure function from an explicit *schedule* (the sequence of outcomes the
environment hands the loop: fire results, which `select!` arm wins, poll
results) to the trace of observable events it produces (publishes, log
lines, timer waits).  Machine integers are `Nat` with explicit range
checks where the source checks them.
-/

namespace Mayastor

/-! ## JSON payloads (serde_json values for the two payload structs) -/

/-- A JSON value as produced by `serde_json` for the flat payload structs:
only strings occur as field values here. -/
inductive JsonVal where
  | str (s : String)
deriving DecidableEq, Repr

/-- A JSON object: ordered field list, as `serde_json` serializes a struct
(fields in declaration order). -/
abbrev JsonObj := List (String × JsonVal)

/-- `struct RegisterArgs { id, #[serde(rename = "grpcEndpoint")] grpc_endpoint }`
(mod.rs lines 107-113). -/
structure RegisterArgs where
  id : String
  grpc_endpoint : String
deriving DecidableEq, Repr

/-- `serde_json::to_vec(&RegisterArgs)` at the JSON-value level: the field
`grpc_endpoint` is renamed `grpcEndpoint` by its serde attribute. -/
def RegisterArgs.toJson (a : RegisterArgs) : JsonObj :=
  [("id", JsonVal.str a.id), ("grpcEndpoint", JsonVal.str a.grpc_endpoint)]

/-- `struct DeregisterArgs { id }` (mod.rs lines 115-119). -/
structure DeregisterArgs where
  id : String
deriving DecidableEq, Repr

/-- `serde_json::to_vec(&DeregisterArgs)` at the JSON-value level. -/
def DeregisterArgs.toJson (a : DeregisterArgs) : JsonObj :=
  [("id", JsonVal.str a.id)]

/-! ## Configuration and environment parsing -/

/-- `const HB_INTERVAL: Duration = Duration::from_secs(2)` (mod.rs line 78),
in seconds. -/
def HB_INTERVAL : Nat := 2

/-- Rust `u64::from_str`: an optional leading `+`, then one or more ASCII
digits, value below `2^64`; anything else (empty, sign alone, `-`, other
characters, overflow) is a parse error, modelled as `none`. -/
def parseU64Digits : List Char → Nat → Option Nat
  | [], acc => some acc
  | c :: rest, acc =>
      if c.isDigit then parseU64Digits rest (acc * 10 + (c.toNat - 48))
      else none

/-- `"...".parse::<u64>()` modelled on `String`. -/
def parseU64 (s : String) : Option Nat :=
  let cs := match s.data with
    | '+' :: rest => rest
    | cs => cs
  match cs with
  | [] => none
  | _ =>
    match parseU64Digits cs 0 with
    | some v => if v < 2 ^ 64 then some v else none
    | none => none

/-- `struct Configuration` (mod.rs lines 121-129); `hb_interval` in
seconds. -/
structure Configuration where
  node : String
  grpc_endpoint : String
  hb_interval : Nat
deriving DecidableEq, Repr

/-- The `Registration` struct (mod.rs lines 131-139).  The two halves of the
`smol::channel` pair are modelled by the one piece of state they carry that
the code uses: whether the channel has been closed. -/
structure Registration where
  config : Configuration
  chanClosed : Bool
deriving DecidableEq, Repr

/-- `Registration::new` (mod.rs lines 155-172): the heartbeat interval is
taken from the environment variable `MAYASTOR_HB_INTERVAL` when it is
present and parses as a `u64` (`Ok(Ok(num))`), and is `HB_INTERVAL`
otherwise.  `env` is the result of `env::var`, `none` covering both the
absent and the non-unicode case. -/
def Registration.new (node grpc_endpoint : String) (env : Option String) :
    Registration :=
  { config :=
      { node := node
        grpc_endpoint := grpc_endpoint
        hb_interval :=
          match env with
          | some v =>
            match parseU64 v with
            | some num => num
            | none => HB_INTERVAL
          | none => HB_INTERVAL }
    chanClosed := false }

/-- `Registration::fini` (mod.rs lines 178-180): closes the sender half of
the cancellation channel.  `smol`'s `close` is idempotent and cannot
panic. -/
def Registration.fini (r : Registration) : Registration :=
  { r with chanClosed := true }

/-- The process-global state touched by `Registration::init`:
`MESSAGE_BUS_REG: OnceCell<Registration>` (mod.rs line 141) plus the number
of runner threads spawned by `std::thread::spawn` in `init`. -/
structure RegState where
  message_bus_reg : Option Registration
  runnerThreads : Nat
deriving DecidableEq, Repr

/-- `Registration::init` (mod.rs lines 143-153): `get_or_init` writes the
cell only when it is empty, but the `std::thread::spawn` that starts a
runner executing `run()` is outside `get_or_init` and happens on every
call. -/
def Registration.init (node grpc_endpoint : String) (env : Option String)
    (st : RegState) : RegState :=
  let cell :=
    match st.message_bus_reg with
    | some r => some r
    | none => some (Registration.new node grpc_endpoint env)
  { message_bus_reg := cell, runnerThreads := st.runnerThreads + 1 }

/-! ## The heartbeat loop `Registration::run` (mod.rs lines 200-231)

The loop's interaction with its environment is captured by a schedule:
for each iteration, whether the `fire("register", ..)` enqueue succeeds,
and which arm of the `select!` wins (the heartbeat timer, or the
cancellation channel yielding `Some(())`); the loop ends at the first
iteration whose `select!` observes the channel closed (`None`), which is
the last entry of the schedule.  The trace records publishes (fire
attempts with their outcome), flush attempts, timer waits and log lines. -/

/-- Observable events of the registration worker. -/
inductive Ev where
  /-- `fire(channel, payload)` attempt and its result (`ok = true` means
  the message was queued). -/
  | fire (channel : String) (payload : JsonObj) (ok : Bool)
  /-- `flush()` attempt and its result. -/
  | flush (ok : Bool)
  /-- The heartbeat timer arm of `select!` won after `secs` seconds. -/
  | tick (secs : Nat)
  | logError (s : String)
  | logInfo (s : String)
  | logDebug (s : String)
deriving DecidableEq, Repr

/-- Which arm of the `select!` wins in a non-final Active iteration:
the heartbeat timer, or a `Some(())` message on the cancellation
channel. -/
inductive ActiveEvent where
  | timer
  | msg
deriving DecidableEq, Repr

/-- `Registration::register` (mod.rs lines 234-255): builds the
`RegisterArgs` payload from the configuration and fires it on channel
`"register"`; returns whether it succeeded (a failed enqueue is mapped to
`Error::QueueRegister` by `?`, skipping the debug log). -/
def Registration.register (cfg : Configuration) (fireOk : Bool) :
    List Ev × Bool :=
  let payload := RegisterArgs.toJson
    { id := cfg.node, grpc_endpoint := cfg.grpc_endpoint }
  if fireOk then
    ([Ev.fire "register" payload true,
      Ev.logDebug ("Registered " ++ cfg.node ++ " " ++ cfg.grpc_endpoint)],
     true)
  else
    ([Ev.fire "register" payload false], false)

/-- One `self.register().await` call in `run`, with the
`if let Err(err) = ... { error!("Registration failed") }` around it
(mod.rs lines 211-213). -/
def registerStep (cfg : Configuration) (fireOk : Bool) : List Ev :=
  let (evs, ok) := Registration.register cfg fireOk
  evs ++ if ok then [] else [Ev.logError "Registration failed"]

/-- `Registration::deregister` (mod.rs lines 258-277): fires the
`DeregisterArgs` payload on channel `"deregister"`; on enqueue failure the
`?` returns `Error::QueueDeregister` early, so the flush is *not*
attempted.  On success it attempts a flush, logging (not escalating) a
flush failure, then logs the info line and returns `Ok`. -/
def Registration.deregister (cfg : Configuration) (fireOk flushOk : Bool) :
    List Ev × Bool :=
  let payload := DeregisterArgs.toJson { id := cfg.node }
  if fireOk then
    ([Ev.fire "deregister" payload true, Ev.flush flushOk]
      ++ (if flushOk then [] else [Ev.logError "Failed to explicitly flush"])
      ++ [Ev.logInfo ("Deregistered " ++ cfg.node ++ " " ++ cfg.grpc_endpoint)],
     true)
  else
    ([Ev.fire "deregister" payload false], false)

/-- The `self.deregister().await` call after the loop, with the
`if let Err(err) = ... { error!("Deregistration failed") }` around it
(mod.rs lines 228-230). -/
def deregisterStep (cfg : Configuration) (fireOk flushOk : Bool) : List Ev :=
  let (evs, ok) := Registration.deregister cfg fireOk flushOk
  evs ++ if ok then [] else [Ev.logError "Deregistration failed"]

/-- One non-final iteration of the Active loop: the register step, then the
`select!` (mod.rs lines 215-226).  If the timer wins, the loop waited a
full heartbeat interval (`continue`); if the channel yields `Some(())`,
the loop logs and falls through to the next iteration with no timer
wait. -/
def activeIter (cfg : Configuration) (i : Bool × ActiveEvent) : List Ev :=
  registerStep cfg i.1 ++
    match i.2 with
    | ActiveEvent.timer => [Ev.tick cfg.hb_interval]
    | ActiveEvent.msg => [Ev.logInfo "Messages have not been implemented yet"]

/-- The trace of all non-final Active iterations. -/
def loopIters (cfg : Configuration) (iters : List (Bool × ActiveEvent)) :
    List Ev :=
  (iters.map (activeIter cfg)).flatten

/-- `Registration::run` (mod.rs lines 204-231) after `wait_for_connection`
has returned (the wait phase is modelled separately and publishes
nothing): the info line, the non-final Active iterations, the final
iteration whose `select!` observes the cancellation channel closed
(`lastRegOk` is that iteration's register outcome), the terminating log on
`break`, then the deregister step. -/
def Registration.run (cfg : Configuration)
    (iters : List (Bool × ActiveEvent)) (lastRegOk deregOk flushOk : Bool) :
    List Ev :=
  Ev.logInfo ("Registering " ++ cfg.node ++ " " ++ cfg.grpc_endpoint)
    :: loopIters cfg iters
    ++ registerStep cfg lastRegOk
    ++ [Ev.logInfo "Terminating the NATS client"]
    ++ deregisterStep cfg deregOk flushOk

/-! ## `NatsMessageBus::connect` and `wait_for_connection`
(mbus_nats.rs lines 24-94)

Both loops are driven by a schedule: for `connect`, the outcome of each
`nats::asynk::connect` attempt; for `wait_for_connection`, whether
`NATS_MSG_BUS.get()` is populated at each poll.  The loop returns at the
first success; a schedule exhausted before any success describes a run
observed mid-retry (second component `false`: the call has not
returned). -/

/-- Observable events of the connect / wait loops. -/
inductive ConnEv where
  | logInfo (s : String)
  | logWarn (s : String)
  /-- `smol::Timer::after` wait, in milliseconds. -/
  | sleep (ms : Nat)
deriving DecidableEq, Repr

/-- The `loop` of `NatsMessageBus::connect` (mbus_nats.rs lines 31-52):
`log_error` starts `true`; a failed attempt warns only when `log_error` is
set, then clears it and sleeps 500 ms; a successful attempt logs and
returns. -/
def NatsMessageBus.connectLoop : Bool → List Bool → List ConnEv × Bool
  | _, [] => ([], false)
  | log_error, ok :: rest =>
    if ok then
      ([ConnEv.logInfo "Successfully connected to the nats server"], true)
    else
      let warns :=
        if log_error then
          [ConnEv.logWarn "Error connection. Quietly retrying..."]
        else []
      let (evs, r) := NatsMessageBus.connectLoop false rest
      (warns ++ ConnEv.sleep 500 :: evs, r)

/-- `NatsMessageBus::connect` (mbus_nats.rs lines 25-53): the initial info
line, then the retry loop with `log_error = true`. -/
def NatsMessageBus.connect (attempts : List Bool) : List ConnEv × Bool :=
  let (evs, r) := NatsMessageBus.connectLoop true attempts
  (ConnEv.logInfo "Connecting to the nats server..." :: evs, r)

/-- `NatsMessageBus::wait_for_connection` (mbus_nats.rs lines 75-94):
polls `NATS_MSG_BUS.get()`; on `None`, when `log_error` is set it warns and
then executes `log_error = true` — the source sets the flag back to `true`
(not `false`), so the flag never clears — then sleeps 500 ms and
retries; on `Some` it logs and breaks. -/
def NatsMessageBus.waitForConn : Bool → List Bool → List ConnEv × Bool
  | _, [] => ([], false)
  | log_error, present :: rest =>
    if present then
      ([ConnEv.logInfo "Successfully connected to the nats server"], true)
    else
      let next_log_error := if log_error then true else log_error
      let warns :=
        if log_error then
          [ConnEv.logWarn "Message bus not ready, quietly retrying..."]
        else []
      let (evs, r) := NatsMessageBus.waitForConn next_log_error rest
      (warns ++ ConnEv.sleep 500 :: evs, r)

/-- The entry point: the loop starts with `log_error = true`. -/
def NatsMessageBus.wait_for_connection (polls : List Bool) :
    List ConnEv × Bool :=
  NatsMessageBus.waitForConn true polls

/-! ## `message_bus()` and calls made before initialization
(mod.rs lines 280-282, 97-100) -/

/-- The variants of `enum Error` (mod.rs lines 86-105); payloads elided. -/
inductive ErrorKind where
  | connectFailed
  | notStarted
  | queueRegister
  | queueDeregister
deriving DecidableEq, Repr

/-- Outcome of a call into the registration helpers: `Ok`, an `Err` of the
mbus `Error` enum, or a panic (an `unwrap()` on an empty `OnceCell`). -/
inductive CallOutcome where
  | ok
  | err (e : ErrorKind)
  | panicked
deriving DecidableEq, Repr

/-- `CallOutcome.isErrResult` is `true` exactly when the call returned an
`Err` value. -/
def CallOutcome.isErrResult : CallOutcome → Bool
  | CallOutcome.err _ => true
  | _ => false

/-- Outcome of `Registration::register` as seen by a caller, given the
state of `NATS_MSG_BUS`: `none` means the once-cell is empty, in which
case `message_bus()` = `NATS_MSG_BUS.get().unwrap()` panics; `some fireOk`
means the bus exists and the publish enqueue succeeds iff `fireOk`. -/
def registerOutcome (bus : Option Bool) : CallOutcome :=
  match bus with
  | none => CallOutcome.panicked
  | some fireOk =>
    if fireOk then CallOutcome.ok
    else CallOutcome.err ErrorKind.queueRegister

/-- Outcome of `Registration::deregister` as seen by a caller (the flush
outcome does not affect the result; a failed enqueue is
`QueueDeregister`). -/
def deregisterOutcome (bus : Option Bool) : CallOutcome :=
  match bus with
  | none => CallOutcome.panicked
  | some fireOk =>
    if fireOk then CallOutcome.ok
    else CallOutcome.err ErrorKind.queueDeregister

/-! ## Trace predicates used to state the claims -/

/-- The event is a publish attempt on the given channel. -/
def Ev.isFireOn (channel : String) : Ev → Bool
  | Ev.fire c _ _ => c == channel
  | _ => false

/-- The event is a `flush()` attempt (either outcome). -/
def Ev.isFlushAttempt : Ev → Bool
  | Ev.flush _ => true
  | _ => false

/-- The event is an error-log line with the given message. -/
def Ev.isLogErrorMsg (s : String) : Ev → Bool
  | Ev.logError t => t == s
  | _ => false

/-- The event is an info-log line with the given message. -/
def Ev.isLogInfoMsg (s : String) : Ev → Bool
  | Ev.logInfo t => t == s
  | _ => false

/-- The event is a warning-log line. -/
def ConnEv.isWarn : ConnEv → Bool
  | ConnEv.logWarn _ => true
  | _ => false

/-- The event is a timer sleep. -/
def ConnEv.isSleep : ConnEv → Bool
  | ConnEv.sleep _ => true
  | _ => false

/-! ## Helper lemmas about the trace combinators -/

/-- `registerStep` in explicit list form. -/
theorem registerStep_eq (cfg : Configuration) (b : Bool) :
    registerStep cfg b
      = Ev.fire "register"
          (RegisterArgs.toJson
            { id := cfg.node, grpc_endpoint := cfg.grpc_endpoint }) b
        :: (if b then
              [Ev.logDebug ("Registered " ++ cfg.node ++ " " ++ cfg.grpc_endpoint)]
            else [Ev.logError "Registration failed"]) := by
  cases b <;> rfl

/-- `deregisterStep` in explicit list form. -/
theorem deregisterStep_eq (cfg : Configuration) (fireOk flushOk : Bool) :
    deregisterStep cfg fireOk flushOk
      = if fireOk then
          Ev.fire "deregister" (DeregisterArgs.toJson { id := cfg.node }) true
            :: Ev.flush flushOk
            :: ((if flushOk then []
                 else [Ev.logError "Failed to explicitly flush"])
              ++ [Ev.logInfo
                    ("Deregistered " ++ cfg.node ++ " " ++ cfg.grpc_endpoint)])
        else
          [Ev.fire "deregister" (DeregisterArgs.toJson { id := cfg.node }) false,
           Ev.logError "Deregistration failed"] := by
  cases fireOk <;> cases flushOk <;> rfl

theorem loopIters_nil (cfg : Configuration) : loopIters cfg [] = [] := rfl

theorem loopIters_cons (cfg : Configuration) (i : Bool × ActiveEvent)
    (rest : List (Bool × ActiveEvent)) :
    loopIters cfg (i :: rest) = activeIter cfg i ++ loopIters cfg rest := by
  simp [loopIters]

theorem loopIters_append (cfg : Configuration)
    (a b : List (Bool × ActiveEvent)) :
    loopIters cfg (a ++ b) = loopIters cfg a ++ loopIters cfg b := by
  simp [loopIters]

/-- When every Active iteration contributes `k` events satisfying `q`, the
whole Active phase contributes `k` per iteration. -/
theorem loopIters_countP_const (cfg : Configuration) (q : Ev → Bool) (k : Nat)
    (h : ∀ b ev, (activeIter cfg (b, ev)).countP q = k)
    (iters : List (Bool × ActiveEvent)) :
    (loopIters cfg iters).countP q = k * iters.length := by
  induction iters with
  | nil => simp [loopIters]
  | cons i rest ih =>
    obtain ⟨b, ev⟩ := i
    rw [loopIters_cons, List.countP_append, h, ih, List.length_cons,
      Nat.mul_succ]
    omega

/-- Special case: no Active iteration produces an event satisfying `q`. -/
theorem loopIters_countP_zero (cfg : Configuration) (q : Ev → Bool)
    (h : ∀ b ev, (activeIter cfg (b, ev)).countP q = 0)
    (iters : List (Bool × ActiveEvent)) :
    (loopIters cfg iters).countP q = 0 := by
  have := loopIters_countP_const cfg q 0 h iters
  simpa using this

/-- Each Active iteration makes exactly one register fire attempt. -/
theorem activeIter_countP_registerFire (cfg : Configuration) (b : Bool)
    (ev : ActiveEvent) :
    (activeIter cfg (b, ev)).countP (Ev.isFireOn "register") = 1 := by
  cases b <;> cases ev <;>
    simp [activeIter, registerStep_eq, Ev.isFireOn, List.countP_cons,
      List.countP_append]

/-- No Active iteration fires on the `"deregister"` channel. -/
theorem activeIter_countP_deregFire (cfg : Configuration) (b : Bool)
    (ev : ActiveEvent) :
    (activeIter cfg (b, ev)).countP (Ev.isFireOn "deregister") = 0 := by
  cases b <;> cases ev <;>
    simp [activeIter, registerStep_eq, Ev.isFireOn, List.countP_cons,
      List.countP_append]

/-- No Active iteration attempts a flush. -/
theorem activeIter_countP_flush (cfg : Configuration) (b : Bool)
    (ev : ActiveEvent) :
    (activeIter cfg (b, ev)).countP Ev.isFlushAttempt = 0 := by
  cases b <;> cases ev <;>
    simp [activeIter, registerStep_eq, Ev.isFlushAttempt, List.countP_cons,
      List.countP_append]

/-- An Active iteration logs `Registration failed` exactly when its fire
failed. -/
theorem activeIter_countP_regFailed (cfg : Configuration) (b : Bool)
    (ev : ActiveEvent) :
    (activeIter cfg (b, ev)).countP (Ev.isLogErrorMsg "Registration failed")
      = if b then 0 else 1 := by
  cases b <;> cases ev <;>
    simp [activeIter, registerStep_eq, Ev.isLogErrorMsg, List.countP_cons,
      List.countP_append]

/-- No Active iteration logs a flush failure. -/
theorem activeIter_countP_flushFailed (cfg : Configuration) (b : Bool)
    (ev : ActiveEvent) :
    (activeIter cfg (b, ev)).countP
        (Ev.isLogErrorMsg "Failed to explicitly flush") = 0 := by
  cases b <;> cases ev <;>
    simp [activeIter, registerStep_eq, Ev.isLogErrorMsg, List.countP_cons,
      List.countP_append]

/-- No Active iteration logs a deregistration failure. -/
theorem activeIter_countP_deregFailed (cfg : Configuration) (b : Bool)
    (ev : ActiveEvent) :
    (activeIter cfg (b, ev)).countP
        (Ev.isLogErrorMsg "Deregistration failed") = 0 := by
  cases b <;> cases ev <;>
    simp [activeIter, registerStep_eq, Ev.isLogErrorMsg, List.countP_cons,
      List.countP_append]

/-- The Active phase logs `Registration failed` once per failed iteration. -/
theorem loopIters_countP_regFailed (cfg : Configuration)
    (iters : List (Bool × ActiveEvent)) :
    (loopIters cfg iters).countP (Ev.isLogErrorMsg "Registration failed")
      = iters.countP (fun i => !i.1) := by
  induction iters with
  | nil => simp [loopIters]
  | cons i rest ih =>
    obtain ⟨b, ev⟩ := i
    rw [loopIters_cons, List.countP_append, ih,
      activeIter_countP_regFailed, List.countP_cons]
    cases b
    · simp [Nat.add_comm]
    · simp

/-- A register step makes exactly one register fire attempt. -/
theorem registerStep_countP_registerFire (cfg : Configuration) (b : Bool) :
    (registerStep cfg b).countP (Ev.isFireOn "register") = 1 := by
  cases b <;>
    simp [registerStep_eq, Ev.isFireOn, List.countP_cons]

/-- A register step never fires on `"deregister"`. -/
theorem registerStep_countP_deregFire (cfg : Configuration) (b : Bool) :
    (registerStep cfg b).countP (Ev.isFireOn "deregister") = 0 := by
  cases b <;>
    simp [registerStep_eq, Ev.isFireOn, List.countP_cons]

/-- A register step never attempts a flush. -/
theorem registerStep_countP_flush (cfg : Configuration) (b : Bool) :
    (registerStep cfg b).countP Ev.isFlushAttempt = 0 := by
  cases b <;>
    simp [registerStep_eq, Ev.isFlushAttempt, List.countP_cons]

/-- A register step logs `Registration failed` exactly when it failed. -/
theorem registerStep_countP_regFailed (cfg : Configuration) (b : Bool) :
    (registerStep cfg b).countP (Ev.isLogErrorMsg "Registration failed")
      = if b then 0 else 1 := by
  cases b <;>
    simp [registerStep_eq, Ev.isLogErrorMsg, List.countP_cons]

/-- A register step never logs a flush failure. -/
theorem registerStep_countP_flushFailed (cfg : Configuration) (b : Bool) :
    (registerStep cfg b).countP
      (Ev.isLogErrorMsg "Failed to explicitly flush") = 0 := by
  cases b <;>
    simp [registerStep_eq, Ev.isLogErrorMsg, List.countP_cons]

/-- A register step never logs a deregistration failure. -/
theorem registerStep_countP_deregFailed (cfg : Configuration) (b : Bool) :
    (registerStep cfg b).countP
      (Ev.isLogErrorMsg "Deregistration failed") = 0 := by
  cases b <;>
    simp [registerStep_eq, Ev.isLogErrorMsg, List.countP_cons]

/-- The deregister step never logs a register failure. -/
theorem deregisterStep_countP_regFailed (cfg : Configuration)
    (fireOk flushOk : Bool) :
    (deregisterStep cfg fireOk flushOk).countP
      (Ev.isLogErrorMsg "Registration failed") = 0 := by
  cases fireOk <;> cases flushOk <;>
    simp [deregisterStep_eq, Ev.isLogErrorMsg, List.countP_cons,
      List.countP_append]

/-- The deregister step makes exactly one deregister fire attempt. -/
theorem deregisterStep_countP_deregFire (cfg : Configuration)
    (fireOk flushOk : Bool) :
    (deregisterStep cfg fireOk flushOk).countP (Ev.isFireOn "deregister")
      = 1 := by
  cases fireOk <;> cases flushOk <;>
    simp [deregisterStep_eq, Ev.isFireOn, List.countP_cons, List.countP_append]

/-- The deregister step never fires on `"register"`. -/
theorem deregisterStep_countP_registerFire (cfg : Configuration)
    (fireOk flushOk : Bool) :
    (deregisterStep cfg fireOk flushOk).countP (Ev.isFireOn "register")
      = 0 := by
  cases fireOk <;> cases flushOk <;>
    simp [deregisterStep_eq, Ev.isFireOn, List.countP_cons, List.countP_append]

/-- The deregister step attempts a flush exactly when the deregister
enqueue succeeded. -/
theorem deregisterStep_countP_flush (cfg : Configuration)
    (fireOk flushOk : Bool) :
    (deregisterStep cfg fireOk flushOk).countP Ev.isFlushAttempt
      = if fireOk then 1 else 0 := by
  cases fireOk <;> cases flushOk <;>
    simp [deregisterStep_eq, Ev.isFlushAttempt, List.countP_cons,
      List.countP_append]

/-- The deregister step logs a flush failure exactly when the enqueue
succeeded and the flush failed. -/
theorem deregisterStep_countP_flushFailed (cfg : Configuration)
    (fireOk flushOk : Bool) :
    (deregisterStep cfg fireOk flushOk).countP
        (Ev.isLogErrorMsg "Failed to explicitly flush")
      = if fireOk && !flushOk then 1 else 0 := by
  cases fireOk <;> cases flushOk <;>
    simp [deregisterStep_eq, Ev.isLogErrorMsg, List.countP_cons,
      List.countP_append]

/-- The deregister step logs `Deregistration failed` exactly when the
enqueue failed. -/
theorem deregisterStep_countP_deregFailed (cfg : Configuration)
    (fireOk flushOk : Bool) :
    (deregisterStep cfg fireOk flushOk).countP
        (Ev.isLogErrorMsg "Deregistration failed")
      = if fireOk then 0 else 1 := by
  cases fireOk <;> cases flushOk <;>
    simp [deregisterStep_eq, Ev.isLogErrorMsg, List.countP_cons,
      List.countP_append]

/-- Counting over a full run decomposes into its four phases. -/
theorem run_countP (cfg : Configuration) (iters : List (Bool × ActiveEvent))
    (lastRegOk deregOk flushOk : Bool) (q : Ev → Bool) :
    (Registration.run cfg iters lastRegOk deregOk flushOk).countP q
      = (if q (Ev.logInfo
            ("Registering " ++ cfg.node ++ " " ++ cfg.grpc_endpoint))
          then 1 else 0)
        + (loopIters cfg iters).countP q
        + (registerStep cfg lastRegOk).countP q
        + (if q (Ev.logInfo "Terminating the NATS client") then 1 else 0)
        + (deregisterStep cfg deregOk flushOk).countP q := by
  simp [Registration.run, List.countP_append, List.countP_cons]
  omega

/-! Helper lemmas for the connect and wait loops. -/

/-- After the first failure has cleared `log_error`, `k` further failures
followed by a success produce `k` fixed 500 ms sleeps, no further
warnings, and the loop returns. -/
theorem connectLoop_false_replicate (k : Nat) :
    NatsMessageBus.connectLoop false (List.replicate k false ++ [true])
      = (List.replicate k (ConnEv.sleep 500)
          ++ [ConnEv.logInfo "Successfully connected to the nats server"],
         true) := by
  induction k with
  | zero => rfl
  | succ n ih =>
    rw [List.replicate_succ, List.cons_append]
    simp [NatsMessageBus.connectLoop, ih, List.replicate_succ]

/-- The connect loop returns exactly when some scheduled attempt
succeeds. -/
theorem connectLoop_snd (le : Bool) (atts : List Bool) :
    (NatsMessageBus.connectLoop le atts).2 = atts.any (fun b => b) := by
  induction atts generalizing le with
  | nil => rfl
  | cons a rest ih =>
    cases a <;> simp [NatsMessageBus.connectLoop, ih]

/-- `connect` against `k + 1` failures then a success, in explicit form. -/
theorem connect_replicate_succ (k : Nat) :
    NatsMessageBus.connect (List.replicate (k + 1) false ++ [true])
      = (ConnEv.logInfo "Connecting to the nats server..."
          :: ConnEv.logWarn "Error connection. Quietly retrying..."
          :: ConnEv.sleep 500
          :: (List.replicate k (ConnEv.sleep 500)
              ++ [ConnEv.logInfo "Successfully connected to the nats server"]),
         true) := by
  rw [List.replicate_succ, List.cons_append]
  simp [NatsMessageBus.connect, NatsMessageBus.connectLoop,
    connectLoop_false_replicate]

theorem filter_isSleep_replicate (k : Nat) :
    (List.replicate k (ConnEv.sleep 500)).filter ConnEv.isSleep
      = List.replicate k (ConnEv.sleep 500) := by
  induction k with
  | zero => rfl
  | succ n ih =>
    simp [List.replicate_succ, List.filter_cons, ConnEv.isSleep, ih]

theorem countP_isWarn_replicate_sleep (k : Nat) :
    (List.replicate k (ConnEv.sleep 500)).countP ConnEv.isWarn = 0 := by
  induction k with
  | zero => rfl
  | succ n ih =>
    simp [List.replicate_succ, List.countP_cons, ConnEv.isWarn, ih]

/-- The wait loop warns on every absent poll: the flag is re-set to `true`
in the source, so nothing is ever suppressed. -/
theorem waitForConn_warns (k : Nat) :
    ((NatsMessageBus.waitForConn true
        (List.replicate k false ++ [true])).1.countP ConnEv.isWarn) = k := by
  induction k with
  | zero => rfl
  | succ n ih =>
    rw [List.replicate_succ, List.cons_append]
    simp [NatsMessageBus.waitForConn, List.countP_cons, ConnEv.isWarn, ih]

/-! ## The claims -/

/-- C1: for a single Registration Instance, the publishes of the heartbeat
worker are `register, ..., register, deregister`: the whole run is the
register phase (which never fires on `"deregister"`) followed by the
deregister step, which makes exactly one deregister fire attempt and no
register fire; the run as a whole attempts `deregister` exactly once after
`fini()` closes the cancellation channel (the schedule's final `closed`
observation), and `fini` is idempotent: a second call re-closes an already
closed channel, a no-op that cannot panic. -/
theorem c1_publish_ordering_single_dereg (cfg : Configuration)
    (iters : List (Bool × ActiveEvent)) (lastRegOk deregOk flushOk : Bool)
    (r : Registration) :
    (Registration.run cfg iters lastRegOk deregOk flushOk
      = (Ev.logInfo ("Registering " ++ cfg.node ++ " " ++ cfg.grpc_endpoint)
          :: loopIters cfg iters
          ++ registerStep cfg lastRegOk
          ++ [Ev.logInfo "Terminating the NATS client"])
        ++ deregisterStep cfg deregOk flushOk)
  ∧ ((Ev.logInfo ("Registering " ++ cfg.node ++ " " ++ cfg.grpc_endpoint)
        :: loopIters cfg iters
        ++ registerStep cfg lastRegOk
        ++ [Ev.logInfo "Terminating the NATS client"]).countP
        (Ev.isFireOn "deregister") = 0)
  ∧ ((deregisterStep cfg deregOk flushOk).countP (Ev.isFireOn "deregister")
      = 1)
  ∧ ((deregisterStep cfg deregOk flushOk).countP (Ev.isFireOn "register")
      = 0)
  ∧ ((Registration.run cfg iters lastRegOk deregOk flushOk).countP
        (Ev.isFireOn "deregister") = 1)
  ∧ Registration.fini (Registration.fini r) = Registration.fini r
  ∧ (Registration.fini r).chanClosed = true := by
  refine ⟨by simp [Registration.run], ?_, deregisterStep_countP_deregFire cfg deregOk flushOk,
    deregisterStep_countP_registerFire cfg deregOk flushOk, ?_, rfl, rfl⟩
  · simp [List.countP_cons, List.countP_append,
      loopIters_countP_zero cfg _ (activeIter_countP_deregFire cfg),
      registerStep_countP_deregFire, Ev.isFireOn]
  · rw [run_countP, loopIters_countP_zero cfg _ (activeIter_countP_deregFire cfg),
      registerStep_countP_deregFire, deregisterStep_countP_deregFire]
    simp [Ev.isFireOn]

/-- C2: `connect` retries failed attempts at a fixed 500 ms interval with
no retry limit and no backoff growth: against any number `N ≥ 1` of
initial failures followed by a success it returns the connection, emits
exactly one connection-failure warning, and sleeps exactly `N` times, each
for 500 ms; moreover, on any attempt schedule, `connect` returns exactly
when some attempt succeeds (it never fails terminally). -/
theorem c2_connect_retry (N : Nat) (h : 1 ≤ N) :
    ((NatsMessageBus.connect (List.replicate N false ++ [true])).2 = true)
  ∧ ((NatsMessageBus.connect (List.replicate N false ++ [true])).1.countP
      ConnEv.isWarn = 1)
  ∧ ((NatsMessageBus.connect (List.replicate N false ++ [true])).1.filter
      ConnEv.isSleep = List.replicate N (ConnEv.sleep 500))
  ∧ (∀ atts : List Bool,
      (NatsMessageBus.connect atts).2 = atts.any (fun b => b)) := by
  obtain ⟨k, rfl⟩ : ∃ k, N = k + 1 := ⟨N - 1, by omega⟩
  refine ⟨?_, ?_, ?_, fun atts => ?_⟩
  · rw [connect_replicate_succ]
  · rw [connect_replicate_succ]
    simp [List.countP_cons, List.countP_append, ConnEv.isWarn,
      countP_isWarn_replicate_sleep]
  · rw [connect_replicate_succ]
    simp [List.filter_cons, List.filter_append, ConnEv.isSleep,
      filter_isSleep_replicate, List.replicate_succ]
  · simp [NatsMessageBus.connect, connectLoop_snd]

/-- Witness for C2 at `N = 3`. -/
theorem c2_witness :
    (1 ≤ 3)
  ∧ ((NatsMessageBus.connect (List.replicate 3 false ++ [true])).2 = true)
  ∧ ((NatsMessageBus.connect (List.replicate 3 false ++ [true])).1.countP
      ConnEv.isWarn = 1) :=
  ⟨by decide, (c2_connect_retry 3 (by decide)).1,
    (c2_connect_retry 3 (by decide)).2.1⟩

/-- C3 counterexample: a run whose deregister enqueue fails makes no flush
attempt at all, although it did terminate (the terminating log is
present); the claim's "the flush attempt happens on every termination,
including when the deregister enqueue itself fails" is false of the code,
whose `?` after the deregister `fire` returns before the flush. -/
theorem c3_counterexample_flush_skipped :
    ((Registration.run ⟨"node-a", "10.0.0.1:10124", 2⟩ [] true false true).countP
        Ev.isFlushAttempt = 0)
  ∧ ((Registration.run ⟨"node-a", "10.0.0.1:10124", 2⟩ [] true false true).countP
        (Ev.isLogInfoMsg "Terminating the NATS client") = 1) := by
  decide

/-- C3 (amended): on entering Terminating the service attempts the
deregister fire exactly once; when that enqueue succeeds it attempts
`flush()` exactly once, logging (and not escalating) a flush failure —
the run then reports no deregistration failure; when the enqueue fails,
the flush is skipped and `Deregistration failed` is logged; the worker
then exits. -/
theorem c3_terminating_flush (cfg : Configuration)
    (iters : List (Bool × ActiveEvent)) (lastRegOk deregOk flushOk : Bool) :
    ((Registration.run cfg iters lastRegOk deregOk flushOk).countP
        Ev.isFlushAttempt = if deregOk then 1 else 0)
  ∧ ((Registration.run cfg iters lastRegOk deregOk flushOk).countP
        (Ev.isFireOn "deregister") = 1)
  ∧ ((Registration.run cfg iters lastRegOk deregOk flushOk).countP
        (Ev.isLogErrorMsg "Failed to explicitly flush")
      = if deregOk && !flushOk then 1 else 0)
  ∧ ((Registration.run cfg iters lastRegOk deregOk flushOk).countP
        (Ev.isLogErrorMsg "Deregistration failed")
      = if deregOk then 0 else 1) := by
  refine ⟨?_, ?_, ?_, ?_⟩
  · rw [run_countP, loopIters_countP_zero cfg _ (activeIter_countP_flush cfg),
      registerStep_countP_flush, deregisterStep_countP_flush]
    simp [Ev.isFlushAttempt]
  · rw [run_countP, loopIters_countP_zero cfg _ (activeIter_countP_deregFire cfg),
      registerStep_countP_deregFire, deregisterStep_countP_deregFire]
    simp [Ev.isFireOn]
  · rw [run_countP,
      loopIters_countP_zero cfg _ (activeIter_countP_flushFailed cfg),
      registerStep_countP_flushFailed, deregisterStep_countP_flushFailed]
    simp [Ev.isLogErrorMsg]
  · rw [run_countP,
      loopIters_countP_zero cfg _ (activeIter_countP_deregFailed cfg),
      registerStep_countP_deregFailed, deregisterStep_countP_deregFailed]
    simp [Ev.isLogErrorMsg]

/-- C4 counterexample: a second `init` call is not a no-op against the
process state — it spawns a second runner thread executing the heartbeat
loop (the `std::thread::spawn` sits outside `get_or_init`), so the state
after two `init` calls differs from the state after one. -/
theorem c4_counterexample_second_init :
    (Registration.init "node-b" "ep-b" none
        (Registration.init "node-a" "ep-a" none ⟨none, 0⟩)
      ≠ Registration.init "node-a" "ep-a" none ⟨none, 0⟩)
  ∧ ((Registration.init "node-b" "ep-b" none
        (Registration.init "node-a" "ep-a" none ⟨none, 0⟩)).runnerThreads
      = 2) := by
  refine ⟨?_, rfl⟩
  decide

/-- C4 (amended): `init` is idempotent with respect to the Registration
Instance — after a second call with different arguments, the once-cell
still holds exactly the instance built from the first call's arguments —
but each call (including repeated ones) spawns one more runner thread, so
a second call does start additional heartbeat activity. -/
theorem c4_init_keeps_first_config (n1 e1 n2 e2 : String)
    (env1 env2 : Option String) :
    ((Registration.init n2 e2 env2
        (Registration.init n1 e1 env1 ⟨none, 0⟩)).message_bus_reg
      = some (Registration.new n1 e1 env1))
  ∧ ((Registration.init n1 e1 env1 ⟨none, 0⟩).message_bus_reg
      = some (Registration.new n1 e1 env1))
  ∧ ((Registration.init n2 e2 env2
        (Registration.init n1 e1 env1 ⟨none, 0⟩)).runnerThreads = 2) :=
  ⟨rfl, rfl, rfl⟩

/-- C5 counterexample: `register()` and `deregister()` invoked before the
message bus is initialized do not return an error result — `message_bus()`
is `NATS_MSG_BUS.get().unwrap()`, which panics on the empty once-cell. -/
theorem c5_counterexample_panic_before_init :
    registerOutcome none = CallOutcome.panicked
  ∧ (registerOutcome none).isErrResult = false
  ∧ deregisterOutcome none = CallOutcome.panicked
  ∧ (deregisterOutcome none).isErrResult = false :=
  ⟨rfl, rfl, rfl, rfl⟩

/-- C5 (amended): calls made before the Connection singleton exists never
silently drop or succeed vacuously, but they fail by panicking (an
`unwrap()` on the empty once-cell) rather than by returning an I/O error;
once the bus exists, a failed enqueue is returned as the corresponding
queue error. -/
theorem c5_before_init_panics (fireOk : Bool) :
    registerOutcome none = CallOutcome.panicked
  ∧ deregisterOutcome none = CallOutcome.panicked
  ∧ registerOutcome (some fireOk)
      = (if fireOk then CallOutcome.ok
         else CallOutcome.err ErrorKind.queueRegister)
  ∧ deregisterOutcome (some fireOk)
      = (if fireOk then CallOutcome.ok
         else CallOutcome.err ErrorKind.queueDeregister) := by
  refine ⟨rfl, rfl, ?_, ?_⟩ <;> cases fireOk <;> rfl

/-- C6: the wait loop does *not* suppress repeat absence logs — the `None`
branch executes `log_error = true` (not `false`), so the `Message bus not
ready` warning is emitted at every polling iteration: twice for two
absent polls, and in general `k` times for `k` absent polls. -/
theorem c6_wait_logs_every_poll :
    ((NatsMessageBus.wait_for_connection [false, false, true]).1.countP
        ConnEv.isWarn = 2)
  ∧ (∀ k : Nat,
      ((NatsMessageBus.wait_for_connection
          (List.replicate k false ++ [true])).1.countP ConnEv.isWarn = k)) :=
  ⟨by decide, fun k => waitForConn_warns k⟩

/-- C7: the heartbeat interval equals `n` seconds when the environment
variable parses as the unsigned integer `n`, and equals the 2-second
default when the variable is unparsable or absent. -/
theorem c7_hb_interval_env (node ep s : String) (n : Nat) :
    (parseU64 s = some n →
      (Registration.new node ep (some s)).config.hb_interval = n)
  ∧ (parseU64 s = none →
      (Registration.new node ep (some s)).config.hb_interval = 2)
  ∧ (Registration.new node ep none).config.hb_interval = 2 := by
  refine ⟨fun h => ?_, fun h => ?_, rfl⟩
  · simp [Registration.new, h]
  · simp [Registration.new, h, HB_INTERVAL]

/-- Witness for C7: a parsable value `"5"`, an unparsable value `"-3"`,
and the absent case. -/
theorem c7_witness :
    (parseU64 "5" = some 5
      ∧ (Registration.new "node-a" "10.0.0.1:10124"
          (some "5")).config.hb_interval = 5)
  ∧ (parseU64 "-3" = none
      ∧ (Registration.new "node-a" "10.0.0.1:10124"
          (some "-3")).config.hb_interval = 2)
  ∧ (Registration.new "node-a" "10.0.0.1:10124" none).config.hb_interval
      = 2 :=
  ⟨⟨by decide,
    (c7_hb_interval_env "node-a" "10.0.0.1:10124" "5" 5).1 (by decide)⟩,
   ⟨by decide,
    (c7_hb_interval_env "node-a" "10.0.0.1:10124" "-3" 0).2.1 (by decide)⟩,
   (c7_hb_interval_env "node-a" "10.0.0.1:10124" "-3" 0).2.2⟩

/-- C8: `register()` fires on channel `"register"` a JSON object with
exactly the keys `id` (the node id) and `grpcEndpoint` (the endpoint), in
that order, and `deregister()` fires on channel `"deregister"` a JSON
object with exactly the key `id`. -/
theorem c8_payload_channels_and_keys (cfg : Configuration)
    (regOk deregOk flushOk : Bool) :
    ((Registration.register cfg regOk).1.head?
      = some (Ev.fire "register"
          (RegisterArgs.toJson
            { id := cfg.node, grpc_endpoint := cfg.grpc_endpoint }) regOk))
  ∧ (RegisterArgs.toJson { id := cfg.node, grpc_endpoint := cfg.grpc_endpoint }
      = [("id", JsonVal.str cfg.node),
         ("grpcEndpoint", JsonVal.str cfg.grpc_endpoint)])
  ∧ ((RegisterArgs.toJson
        { id := cfg.node, grpc_endpoint := cfg.grpc_endpoint }).map Prod.fst
      = ["id", "grpcEndpoint"])
  ∧ ((Registration.deregister cfg deregOk flushOk).1.head?
      = some (Ev.fire "deregister"
          (DeregisterArgs.toJson { id := cfg.node }) deregOk))
  ∧ (DeregisterArgs.toJson { id := cfg.node }
      = [("id", JsonVal.str cfg.node)])
  ∧ ((DeregisterArgs.toJson { id := cfg.node }).map Prod.fst = ["id"]) := by
  refine ⟨?_, rfl, rfl, ?_, rfl, rfl⟩
  · cases regOk <;> rfl
  · cases deregOk <;> rfl

/-- C9: the number of register fire attempts is one per loop iteration
regardless of how many failed; each failed register enqueue contributes
exactly one `Registration failed` error log and the loop goes on —
failures never shorten the run; a deregistration failure is logged and is
the run's final event: the loop still terminated normally. -/
theorem c9_failures_logged_loop_continues (cfg : Configuration)
    (iters : List (Bool × ActiveEvent)) (lastRegOk deregOk flushOk : Bool) :
    ((Registration.run cfg iters lastRegOk deregOk flushOk).countP
        (Ev.isFireOn "register") = iters.length + 1)
  ∧ ((Registration.run cfg iters lastRegOk deregOk flushOk).countP
        (Ev.isLogErrorMsg "Registration failed")
      = iters.countP (fun i => !i.1) + (if lastRegOk then 0 else 1))
  ∧ ((Registration.run cfg iters lastRegOk false flushOk).getLast?
      = some (Ev.logError "Deregistration failed")) := by
  refine ⟨?_, ?_, ?_⟩
  · rw [run_countP,
      loopIters_countP_const cfg _ 1 (activeIter_countP_registerFire cfg),
      registerStep_countP_registerFire,
      deregisterStep_countP_registerFire]
    simp [Ev.isFireOn]
  · rw [run_countP, loopIters_countP_regFailed,
      registerStep_countP_regFailed, deregisterStep_countP_regFailed]
    simp [Ev.isLogErrorMsg]
  · have hrun : Registration.run cfg iters lastRegOk false flushOk
        = ((Ev.logInfo ("Registering " ++ cfg.node ++ " " ++ cfg.grpc_endpoint)
            :: loopIters cfg iters
            ++ registerStep cfg lastRegOk
            ++ [Ev.logInfo "Terminating the NATS client"]
            ++ [Ev.fire "deregister"
                  (DeregisterArgs.toJson { id := cfg.node }) false])
          ++ [Ev.logError "Deregistration failed"]) := by
      simp [Registration.run, deregisterStep_eq]
    rw [hrun, List.getLast?_concat]

/-- C10: a non-close message on the cancellation channel while Active is
logged, does not terminate the loop, and the event immediately after the
log is the next iteration's register fire attempt — no heartbeat tick
(and no terminating activity) stands between them, so the message
perturbs the heartbeat cadence. -/
theorem c10_msg_perturbs_cadence (cfg : Configuration)
    (pre : List (Bool × ActiveEvent)) (ok : Bool)
    (rest : List (Bool × ActiveEvent)) (lastRegOk deregOk flushOk : Bool) :
    (Registration.run cfg (pre ++ (ok, ActiveEvent.msg) :: rest)
        lastRegOk deregOk flushOk
      = (Ev.logInfo ("Registering " ++ cfg.node ++ " " ++ cfg.grpc_endpoint)
          :: loopIters cfg pre ++ registerStep cfg ok)
        ++ Ev.logInfo "Messages have not been implemented yet"
          :: (loopIters cfg rest ++ registerStep cfg lastRegOk
              ++ [Ev.logInfo "Terminating the NATS client"]
              ++ deregisterStep cfg deregOk flushOk))
  ∧ (((loopIters cfg rest ++ registerStep cfg lastRegOk
        ++ [Ev.logInfo "Terminating the NATS client"]
        ++ deregisterStep cfg deregOk flushOk).head?.map
        (Ev.isFireOn "register"))
      = some true) := by
  constructor
  · simp [Registration.run, loopIters_append, loopIters_cons, activeIter]
  · cases rest with
    | nil =>
      rw [loopIters_nil, List.nil_append, registerStep_eq]
      simp [Ev.isFireOn]
    | cons i rest' =>
      rw [loopIters_cons]
      obtain ⟨b, ev⟩ := i
      simp [activeIter, registerStep_eq, Ev.isFireOn]

end Mayastor
